import Mathlib

/-!
Shallow embedding of the OmniMind FastAPI backend (`src/api/src/main.py`).

The backend keeps one logical document in three stores: a relational
document store (PostgreSQL: tables `documents` and `tags`), a vector
index (ChromaDB collection), and a result cache (Redis).  The request
handlers `get_documents`, `create_document`, `search_documents` and
`delete_document` are embedded below as pure functions over explicit
store states.  External effects that the handlers only consume —
the embedding model, the ANN query answer, the wall clock, the generated
uuid — are passed in as parameters; external calls that can raise are
given explicit failure-injection flags, and a raised exception follows
the source's `except` branch (rollback, HTTP 500).

Python strings are modelled as `String`, with the Python string
operations (slicing, `split`, `lower`, `upper`, `startswith`) defined
structurally over the code-point list so that they compute.  Float
arithmetic on similarity scores is modelled as `Rat` (the only
operations the handlers perform on scores are `1 - distance` and
comparison).
-/

namespace OmniMind

/-! ## Python string primitives -/

/-- Python `s.startswith(p)`, as a structural test on code-point lists. -/
def isPre (p s : List Char) : Bool :=
  match p, s with
  | [], _ => true
  | _ :: _, [] => false
  | a :: p, b :: s => a == b && isPre p s

/-- Python `s.startswith(p)` on strings. -/
def pyStarts (s p : String) : Bool :=
  isPre p.data s.data

/-- Python `s.lower()` (ASCII case folding suffices for the source's use). -/
def pyLower (s : String) : String :=
  ⟨s.data.map Char.toLower⟩

/-- Python `s.upper()` (ASCII case folding suffices for the source's use). -/
def pyUpper (s : String) : String :=
  ⟨s.data.map Char.toUpper⟩

/-- Python `s[:n]` on a string: the first `n` code points. -/
def pySlice (s : String) (n : Nat) : String :=
  ⟨s.data.take n⟩

/-- Helper for Python `s.split()`: scan the code points, `cur` holding the
current word reversed; words are runs of non-whitespace. -/
def pyWordsAux (cur : List Char) : List Char → List (List Char)
  | [] => if cur.isEmpty then [] else [cur.reverse]
  | c :: rest =>
      if c.isWhitespace then
        if cur.isEmpty then pyWordsAux [] rest else cur.reverse :: pyWordsAux [] rest
      else
        pyWordsAux (c :: cur) rest

/-- Python `s.split()`: split on runs of whitespace, discarding empty pieces. -/
def pySplit (s : String) : List String :=
  (pyWordsAux [] s.data).map String.mk

/-- Python `s.split(sep)` for a single-character separator (keeps empty pieces). -/
def pySplitChar (sep : Char) : List Char → List (List Char)
  | [] => [[]]
  | c :: rest =>
      let r := pySplitChar sep rest
      if c == sep then [] :: r
      else
        match r with
        | [] => [[c]]
        | h :: t => (c :: h) :: t

/-- Python `s.split("/")[-1]` as used on mime types in `generate_tags_and_summary`. -/
def lastSlashSegment (s : String) : String :=
  ⟨((pySplitChar '/' s.data).getLast?).getD []⟩

/-! ## The annotator: `generate_tags_and_summary` -/

/-- Output of `generate_tags_and_summary` (the `ai_data` dict). -/
structure AIData where
  tags : List String
  summary : String
deriving Repr, DecidableEq

/-- The mime-type test of the text branch in `generate_tags_and_summary`:
`mime_type.startswith("text/") or mime_type == "application/json"`. -/
def isTextual (mime_type : String) : Bool :=
  pyStarts mime_type "text/" || mime_type == "application/json"

/-- The stop-word set of `generate_tags_and_summary`. -/
def common_words : List String :=
  ["the", "and", "or", "but", "in", "on", "at", "to", "for", "of", "a", "an"]

/-- `generate_tags_and_summary(content, mime_type)` from `main.py`.
Python's `list(set(keywords))` enumerates the set in an unspecified
order; it is modelled as `List.dedup` (first-occurrence order), which
agrees with the set on the multiset of elements and hence on size. -/
def generate_tags_and_summary (content : String) (mime_type : String) : AIData :=
  if isTextual mime_type then
    let words := (pySplit (pyLower content)).take 100
    let keywords := (words.filter (fun w =>
      !(common_words.contains w) && decide (3 < w.length))).take 5
    let tags0 := (keywords.dedup).take 5
    let tags := if tags0.isEmpty then ["document", "text", "file"] else tags0
    let summary := if 200 < content.length then pySlice content 200 ++ "..." else content
    ⟨tags, summary⟩
  else
    let file_type := pyUpper (lastSlashSegment mime_type)
    ⟨[file_type, "media", "file"], file_type ++ " file uploaded to OmniMind"⟩

/-! ## Store states

`DBConn` models the single psycopg2 connection: `committed` is the
durable database state, `current` additionally holds the writes executed
since the last commit.  `commit` promotes `current`; `rollback` discards
the uncommitted writes — in particular a `rollback` issued after a
`commit` (as the source's `except` branches do) changes nothing. -/

/-- A row of the PostgreSQL `documents` table.  `created_at` is the
`CURRENT_TIMESTAMP` default, modelled as a numeric timestamp; `metadata`
is the stored `ai_data` JSON. -/
structure DocRow where
  id : String
  filename : String
  content : String
  mime_type : String
  created_at : Nat
  metadata : AIData
deriving Repr, DecidableEq

/-- A row of the PostgreSQL `tags` table (the `SERIAL` surrogate key is
not observable through any endpoint and is omitted). -/
structure TagRow where
  doc_id : String
  tag : String
deriving Repr, DecidableEq

/-- The PostgreSQL database: `documents` in insertion order and `tags`. -/
structure DBState where
  documents : List DocRow
  tags : List TagRow
deriving Repr, DecidableEq

/-- The psycopg2 connection: durable state plus uncommitted writes. -/
structure DBConn where
  committed : DBState
  current : DBState
deriving Repr, DecidableEq

def DBConn.commit (c : DBConn) : DBConn := ⟨c.current, c.current⟩

def DBConn.rollback (c : DBConn) : DBConn := ⟨c.committed, c.committed⟩

/-- An entry of the ChromaDB `documents` collection as written by
`create_document`: id, embedding, the denormalized metadata dict, and the
first 1000 characters of the embedded text. -/
structure ChromaEntry where
  id : String
  embedding : List Rat
  filename : String
  mime_type : String
  tags : List String
  document : String
deriving Repr, DecidableEq

/-- The Redis value written by `create_document` under key
`"document:" ++ id` (JSON serialization abstracted to the record). -/
structure CachePayload where
  id : String
  filename : String
  tags : List String
  summary : String
deriving Repr, DecidableEq

/-- The three stores the handlers touch.  Redis `setex`'s TTL only
matters to expiry, which no handler observes, so it is not modelled. -/
structure World where
  conn : DBConn
  chroma : List ChromaEntry
  cache : List (String × CachePayload)
deriving Repr, DecidableEq

/-- The pydantic `Document` response model.  `created_at` is kept as the
numeric timestamp (`isoformat` is an injective rendering no claim
inspects). -/
structure Document where
  id : String
  filename : String
  content : String
  mime_type : String
  created_at : Nat
  tags : List String
  metadata : AIData
  similarity : Option Rat
deriving Repr, DecidableEq

/-- The request body of `POST /api/documents`. -/
structure DocumentCreate where
  filename : String
  content : String
  mimeType : String
deriving Repr, DecidableEq

/-- A handler outcome: a 200 value, or an `HTTPException(status_code)`
(the detail string is not modelled). -/
inductive ApiResult (α : Type) where
  | ok (value : α)
  | httpError (status : Nat)
deriving Repr, DecidableEq

def ApiResult.isOk {α : Type} : ApiResult α → Bool
  | .ok _ => true
  | .httpError _ => false

/-- Failure injection for the external calls of `create_document` that can
raise: `ai_model.encode`, `chroma_collection.add`, `redis_client.setex`. -/
structure Faults where
  embedFails : Bool
  indexFails : Bool
  cacheFails : Bool
deriving Repr, DecidableEq

/-- The three stores a delete touches, in the order the handler issues the
sub-deletes. -/
inductive StoreKind where
  | documentStore
  | vectorIndex
  | resultCache
deriving Repr, DecidableEq

/-! ## SQL row shaping shared by `get_documents` and `search_documents` -/

/-- The tags of one document in `tags`-table order. -/
def dbTagsOf (db : DBState) (doc_id : String) : List String :=
  (db.tags.filter (fun t => t.doc_id == doc_id)).map TagRow.tag

/-- `array_agg(t.tag)` under the `LEFT JOIN ... GROUP BY d.id`: the
aggregated tag array, which is `[NULL]` when the document has no tag
rows (the join produced a single all-NULL right side). -/
def array_agg (db : DBState) (doc_id : String) : List (Option String) :=
  let ts := dbTagsOf db doc_id
  if ts.isEmpty then [none] else ts.map some

/-- Python `row["tags"] if row["tags"][0] else []`: the handler keeps the
aggregated array only when its first element is truthy (not `NULL` and
not the empty string).  `array_agg` never yields an empty array, so the
`[]` branch of the match is unreachable. -/
def pyTags (agg : List (Option String)) : List String :=
  match agg with
  | some t :: _ => if t == "" then [] else agg.filterMap id
  | _ => []

/-- Build one `Document` response record from a fetched row, as both read
handlers do (`content` is `row["content"] or ""`, non-NULL here). -/
def renderDoc (db : DBState) (r : DocRow) (sim : Option Rat) : Document :=
  ⟨r.id, r.filename, r.content, r.mime_type, r.created_at,
    pyTags (array_agg db r.id), r.metadata, sim⟩

/-! ## The handlers -/

/-- The `ORDER BY d.created_at DESC` comparison. -/
def createdDesc (a b : DocRow) : Prop := b.created_at ≤ a.created_at

instance : DecidableRel createdDesc := fun a b => Nat.decLe b.created_at a.created_at

instance : IsTotal DocRow createdDesc :=
  ⟨fun a b => Nat.le_total b.created_at a.created_at⟩

instance : IsTrans DocRow createdDesc :=
  ⟨fun _ _ _ h h' => Nat.le_trans h' h⟩

/-- `GET /api/documents`: fetch every row ordered by `created_at DESC`
(realized here as a sort) with aggregated tags, and shape each row. -/
def get_documents (db : DBState) : List Document :=
  (db.documents.insertionSort createdDesc).map (fun r => renderDoc db r none)

/-- `POST /api/documents`.  Parameters supply the external inputs the
handler consumes: `encode` is `ai_model.encode`, `now` the wall clock,
`doc_id` the generated uuid; `f` injects failures into the three
post-annotation external calls.  A failure reaches the `except` branch:
`db_conn.rollback()` (a no-op after the commit) and HTTP 500. -/
def create_document (encode : String → List Rat) (now : Nat) (doc_id : String)
    (req : DocumentCreate) (f : Faults) (w : World) : ApiResult Document × World :=
  let ai_data := generate_tags_and_summary req.content req.mimeType
  let row : DocRow := ⟨doc_id, req.filename, req.content, req.mimeType, now, ai_data⟩
  let conn2 := DBConn.commit
    ⟨w.conn.committed,
      ⟨w.conn.current.documents ++ [row],
        w.conn.current.tags ++ ai_data.tags.map (fun t => ⟨doc_id, t⟩)⟩⟩
  let text_to_embed := if pyStarts req.mimeType "text/" then req.content else ai_data.summary
  if f.embedFails then
    (.httpError 500, ⟨conn2.rollback, w.chroma, w.cache⟩)
  else
    let embedding := encode text_to_embed
    if f.indexFails then
      (.httpError 500, ⟨conn2.rollback, w.chroma, w.cache⟩)
    else
      let entry : ChromaEntry :=
        ⟨doc_id, embedding, req.filename, req.mimeType, ai_data.tags,
          pySlice text_to_embed 1000⟩
      let chroma1 := w.chroma ++ [entry]
      if f.cacheFails then
        (.httpError 500, ⟨conn2.rollback, chroma1, w.cache⟩)
      else
        let key := "document:" ++ doc_id
        let payload : CachePayload := ⟨doc_id, req.filename, ai_data.tags, ai_data.summary⟩
        let cache1 := (w.cache.filter (fun e => !(e.1 == key))) ++ [(key, payload)]
        (.ok ⟨doc_id, req.filename, req.content, req.mimeType, now, ai_data.tags, ai_data, none⟩,
          ⟨conn2, chroma1, cache1⟩)

/-- `POST /api/search`.  `ids` and `distances` are ChromaDB's answer for
the query embedding (nearest first; equal lengths).  The SQL fetch
`WHERE d.id IN (...) GROUP BY d.id` carries no `ORDER BY`, so the rows
come back in an order of the database's own choosing, modelled as the
`documents`-table order; `similarity=similarities[i]` is then attached
by enumeration position.  Under the primary-key invariant the index `i`
stays below `similarities.length`, so `getD`'s default is never read
(out of range, Python would raise and the handler would answer 500). -/
def search_documents (db : DBState) (ids : List String) (distances : List Rat) :
    List Document :=
  if ids.isEmpty then []
  else
    let similarities := distances.map (fun d => 1 - d)
    let rows := db.documents.filter (fun r => ids.contains r.id)
    rows.enum.map (fun p => renderDoc db p.2 (some (similarities.getD p.1 0)))

/-- `DELETE /api/documents/{doc_id}`.  The handler deletes from
PostgreSQL first (`ON DELETE CASCADE` removes the tag rows) and commits,
then from ChromaDB, then from Redis, and answers `{"success": True}`
(modelled `.ok true`) without inspecting the rowcount.  `indexFails` and
`cacheFails` inject failures into the ChromaDB and Redis deletes; a
failure reaches the `except` branch (rollback — a no-op after the
commit — and HTTP 500).  The third component records which sub-deletes
were attempted, in order. -/
def delete_document (doc_id : String) (indexFails cacheFails : Bool) (w : World) :
    ApiResult Bool × World × List StoreKind :=
  let conn2 := DBConn.commit
    ⟨w.conn.committed,
      ⟨w.conn.current.documents.filter (fun r => !(r.id == doc_id)),
        w.conn.current.tags.filter (fun t => !(t.doc_id == doc_id))⟩⟩
  if indexFails then
    (.httpError 500, ⟨conn2.rollback, w.chroma, w.cache⟩,
      [.documentStore, .vectorIndex])
  else
    let chroma1 := w.chroma.filter (fun e => !(e.id == doc_id))
    if cacheFails then
      (.httpError 500, ⟨conn2.rollback, chroma1, w.cache⟩,
        [.documentStore, .vectorIndex, .resultCache])
    else
      (.ok true,
        ⟨conn2, chroma1, w.cache.filter (fun e => !(e.1 == "document:" ++ doc_id))⟩,
        [.documentStore, .vectorIndex, .resultCache])

/-! ## Spec-side definitions (used to state claims against the model) -/

/-- The similarity score the vector-index query step computed for a given
document id: `1 - distance` at that id's rank in the index's answer. -/
def ownSimilarity (ids : List String) (distances : List Rat) (docId : String) :
    Option Rat :=
  (ids.findIdx? (fun i => i == docId)).map (fun i => 1 - distances.getD i 0)

/-- The spec's reading of search step 3: the returned documents appear in
the vector index's ranking order (the returned ids, in order, are a
subsequence of the index's ranked id list). -/
def preservesRank (db : DBState) (ids : List String) (distances : List Rat) : Prop :=
  ((search_documents db ids distances).map Document.id).Sublist ids

/-- The spec's claimed range for search scores: every attached
`similarity` lies in `[0, 2]`. -/
def simsIn02 (docs : List Document) : Bool :=
  docs.all (fun d =>
    match d.similarity with
    | some s => decide (0 ≤ s) && decide (s ≤ 2)
    | none => true)

/-! ## Concrete fixtures -/

/-- A concrete embedder for witnesses (its value is never inspected). -/
def encode0 : String → List Rat := fun _ => [1]

def rowA : DocRow := ⟨"A", "a.txt", "alpha", "text/plain", 2, ⟨["alpha"], "alpha"⟩⟩

def rowB : DocRow := ⟨"B", "b.txt", "beta", "text/plain", 1, ⟨["beta"], "beta"⟩⟩

/-- A database whose `documents` table holds row `B` before row `A`. -/
def dbBA : DBState := ⟨[rowB, rowA], []⟩

/-- A database holding only row `A`. -/
def dbA : DBState := ⟨[rowA], []⟩

def emptyWorld : World := ⟨⟨⟨[], []⟩, ⟨[], []⟩⟩, [], []⟩

def reqA : DocumentCreate := ⟨"a.txt", "hello world", "text/plain"⟩

/-! ## Helper lemmas -/

/-- Reading a list at the positions `0, …, n-1` via `getD` with `n` within
bounds yields the `n`-prefix of the list. -/
theorem range_map_getD {α : Type} (l : List α) (n : Nat) (d : α) (h : n ≤ l.length) :
    (List.range n).map (fun i => l.getD i d) = l.take n := by
  induction l generalizing n with
  | nil =>
    have hn : n = 0 := Nat.le_zero.mp (by simpa using h)
    subst hn; simp
  | cons a l ih =>
    cases n with
    | zero => simp
    | succ n =>
      have h' : n ≤ l.length := Nat.le_of_succ_le_succ (by simpa using h)
      rw [List.range_succ_eq_map, List.map_cons, List.map_map]
      simp only [Function.comp, List.getD_cons_zero, List.getD_cons_succ, List.take_succ_cons]
      exact congrArg (a :: ·) (ih n h')

/-- Sanity check of the annotator translation: keyword extraction on a
short text document. -/
theorem gts_sanity_text : (generate_tags_and_summary "hello world program" "text/plain").tags
    = ["hello", "world", "program"] := by decide

/-- Sanity check of the annotator translation: the stop-word fallback. -/
theorem gts_sanity_fallback : (generate_tags_and_summary "the at on" "text/plain").tags
    = ["document", "text", "file"] := by decide

/-- Sanity check of the annotator translation: the non-text branch. -/
theorem gts_sanity_media : (generate_tags_and_summary "" "image/png").tags
    = ["PNG", "media", "file"] := by decide

/-- Sanity check of the annotator translation: an empty media type gets
the empty string as its leading tag (`"".split("/")[-1].upper()`). -/
theorem gts_sanity_empty_mime : (generate_tags_and_summary "" "").tags
    = ["", "media", "file"] := by decide

/-- Mapping a function of the position over `l.enum` is mapping it over
`range l.length`. -/
theorem enum_map_fst_apply {α β : Type} (f : Nat → β) (l : List α) :
    l.enum.map (fun p => f p.1) = (List.range l.length).map f := by
  have h := congrArg (List.map f) (List.enum_map_fst l)
  rw [List.map_map] at h
  exact h

/-! ## Claim theorems -/

/-- Claim C1 (code_bug evaluation): with the `documents` table holding
row `B` before row `A` and the vector index answering ids `[A, B]` with
distances `[0, 1/2]`, the handler returns document `B` carrying
similarity `1` — the score `1 - 0` computed for `A` — while the score
computed for `B`'s own id is `1/2`.  The fetched rows come back in table
order, are never re-sorted into rank order, and the scores are attached
by enumeration position. -/
theorem C1_code_bug_eval :
    (search_documents dbBA ["A", "B"] [0, 1/2]).map (fun d => (d.id, d.similarity))
      = [("B", some 1), ("A", some (1/2))]
    ∧ ownSimilarity ["A", "B"] [0, 1/2] "B" = some (1/2)
    ∧ ownSimilarity ["A", "B"] [0, 1/2] "A" = some 1 := by
  refine ⟨?_, ?_, ?_⟩ <;>
    simp [search_documents, dbBA, rowA, rowB, renderDoc, array_agg, dbTagsOf, pyTags,
      ownSimilarity, List.enum, List.enumFrom] <;> norm_num

/-- Claim C2 (counterexample): at the same input, the returned id
sequence `["B", "A"]` is not a subsequence of the index's ranked id list
`["A", "B"]` — the handler does not preserve the ranking order. -/
theorem C2_counterexample :
    ¬ preservesRank dbBA ["A", "B"] [0, 1/2] := by
  unfold preservesRank
  decide

/-- Claim C2 (amended): the `similarity` values across the returned
sequence are still monotonically non-increasing whenever the index
returns its distances ascending (they are attached positionally from the
sorted distance list), even though the documents themselves come back in
the document store's fetch order. -/
theorem C2_amended (db : DBState) (ids : List String) (ds : List Rat)
    (hsort : ds.Sorted (· ≤ ·))
    (hlen : (db.documents.filter (fun r => ids.contains r.id)).length ≤ ds.length) :
    ((search_documents db ids ds).filterMap Document.similarity).Sorted (· ≥ ·) := by
  by_cases hids : ids.isEmpty
  · simp [search_documents, hids, List.Sorted]
  · unfold search_documents
    rw [if_neg hids]
    set sims := ds.map (fun d => 1 - d) with hsims
    set rows := db.documents.filter (fun r => ids.contains r.id) with hrows
    have h1 : (rows.enum.map
          (fun p => renderDoc db p.2 (some (sims.getD p.1 0)))).filterMap Document.similarity
        = rows.enum.map (fun p => sims.getD p.1 0) := by
      rw [List.filterMap_map]
      rw [show (Document.similarity ∘ fun p : Nat × DocRow =>
            renderDoc db p.2 (some (sims.getD p.1 0)))
          = (some ∘ fun p : Nat × DocRow => sims.getD p.1 0) from rfl]
      rw [List.filterMap_eq_map]
    rw [h1, enum_map_fst_apply (fun i => sims.getD i 0) rows, range_map_getD]
    · refine List.Pairwise.sublist (List.take_sublist _ _) ?_
      rw [hsims]
      exact List.pairwise_map.mpr (hsort.imp (fun hab => by
        simp only [ge_iff_le]
        linarith))
    · rw [hsims, List.length_map, hrows]
      exact hlen

/-- Claim C2 (witness): a concrete run of the amended statement. -/
theorem C2_witness :
    (([0, 1] : List Rat).Sorted (· ≤ ·)
      ∧ (dbBA.documents.filter (fun r => (["A", "B"] : List String).contains r.id)).length
          ≤ ([0, 1] : List Rat).length)
    ∧ ((search_documents dbBA ["A", "B"] [0, 1]).filterMap Document.similarity).Sorted
        (· ≥ ·) :=
  ⟨⟨by decide, by decide⟩, C2_amended dbBA ["A", "B"] [0, 1] (by decide) (by decide)⟩

/-- Claim C3 (counterexample): injecting a vector-index failure into a
concrete create makes the handler answer an error (HTTP 500), not a
degraded success returning the Document. -/
theorem C3_counterexample :
    ((create_document encode0 7 "C" reqA ⟨false, true, false⟩ emptyWorld).1).isOk = false
    ∧ ((create_document encode0 7 "C" reqA ⟨false, true, false⟩ emptyWorld).2.conn.committed.documents.map
        DocRow.id) = ["C"] := by
  exact ⟨by decide, by decide⟩

/-- Claim C3 (amended): when the embedding or vector-index step fails
after the document-store commit, the committed row is indeed not rolled
back — the `rollback` issued by the `except` branch comes after the
commit and discards nothing — but the operation is reported to the
caller as an HTTP 500 error, not as a degraded success. -/
theorem C3_amended (encode : String → List Rat) (now : Nat) (doc_id : String)
    (req : DocumentCreate) (f : Faults) (w : World)
    (hf : f.embedFails = true ∨ f.indexFails = true) :
    (create_document encode now doc_id req f w).1 = .httpError 500
    ∧ (⟨doc_id, req.filename, req.content, req.mimeType, now,
        generate_tags_and_summary req.content req.mimeType⟩ : DocRow)
      ∈ (create_document encode now doc_id req f w).2.conn.committed.documents := by
  obtain ⟨e, i, c⟩ := f
  rcases hf with h | h
  · rw [show Faults.embedFails ⟨e, i, c⟩ = e from rfl] at h
    subst h
    simp [create_document, DBConn.commit, DBConn.rollback]
  · rw [show Faults.indexFails ⟨e, i, c⟩ = i from rfl] at h
    subst h
    cases e <;> simp [create_document, DBConn.commit, DBConn.rollback]

/-- Claim C3 (witness): a concrete run of the amended statement. -/
theorem C3_witness :
    ((⟨false, true, false⟩ : Faults).embedFails = true
      ∨ (⟨false, true, false⟩ : Faults).indexFails = true)
    ∧ (create_document encode0 7 "C" reqA ⟨false, true, false⟩ emptyWorld).1 = .httpError 500
    ∧ (⟨"C", reqA.filename, reqA.content, reqA.mimeType, 7,
        generate_tags_and_summary reqA.content reqA.mimeType⟩ : DocRow)
      ∈ (create_document encode0 7 "C" reqA ⟨false, true, false⟩ emptyWorld).2.conn.committed.documents :=
  ⟨Or.inr rfl,
    (C3_amended encode0 7 "C" reqA ⟨false, true, false⟩ emptyWorld (Or.inr rfl)).1,
    (C3_amended encode0 7 "C" reqA ⟨false, true, false⟩ emptyWorld (Or.inr rfl)).2⟩

/-- Claim C4 (counterexample): deleting the id `"x"` from an empty
document store answers `{"success": true}`, not a 404-class result. -/
theorem C4_counterexample :
    (delete_document "x" false false emptyWorld).1 = .ok true
    ∧ (delete_document "x" false false emptyWorld).1 ≠ .httpError 404 := by
  exact ⟨by decide, by decide⟩

/-- Claim C4 (amended): when the document-store delete affects zero rows
(the id does not exist), the operation still reports success to the
caller — the handler never inspects the rowcount — and the stored
documents are unchanged. -/
theorem C4_amended (doc_id : String) (w : World)
    (h : ∀ r ∈ w.conn.current.documents, r.id ≠ doc_id) :
    (delete_document doc_id false false w).1 = .ok true
    ∧ (delete_document doc_id false false w).2.1.conn.current.documents
        = w.conn.current.documents := by
  refine ⟨by simp [delete_document], ?_⟩
  show (w.conn.current.documents.filter (fun r => !(r.id == doc_id))) = _
  rw [List.filter_eq_self]
  intro r hr
  simpa using h r hr

/-- Claim C4 (witness): a concrete run of the amended statement. -/
theorem C4_witness :
    (∀ r ∈ emptyWorld.conn.current.documents, r.id ≠ "x")
    ∧ (delete_document "x" false false emptyWorld).1 = .ok true
    ∧ (delete_document "x" false false emptyWorld).2.1.conn.current.documents
        = emptyWorld.conn.current.documents :=
  ⟨by decide,
    (C4_amended "x" emptyWorld (by decide)).1,
    (C4_amended "x" emptyWorld (by decide)).2⟩

/-- Claim C5 (counterexample): a concrete delete attempts its sub-deletes
in the order document store, vector index, result cache — not in the
claimed order vector index, result cache, document store. -/
theorem C5_counterexample :
    (delete_document "x" false false emptyWorld).2.2
      ≠ [StoreKind.vectorIndex, StoreKind.resultCache, StoreKind.documentStore] := by
  decide

/-- Claim C5 (amended): for every delete in which no sub-delete fails,
the sub-deletes are executed in the order: document store first (with
its commit), then vector index, then result cache last. -/
theorem C5_amended (doc_id : String) (w : World) :
    (delete_document doc_id false false w).2.2
      = [StoreKind.documentStore, StoreKind.vectorIndex, StoreKind.resultCache] := by
  simp [delete_document]

/-- Claim C6 (counterexample): a create whose filename is the empty
string is accepted — no validation is performed — and commits a
document row carrying the empty filename. -/
theorem C6_counterexample :
    ((create_document encode0 7 "C" ⟨"", "hello", "text/plain"⟩ ⟨false, false, false⟩
        emptyWorld).1).isOk = true
    ∧ ((create_document encode0 7 "C" ⟨"", "hello", "text/plain"⟩ ⟨false, false, false⟩
        emptyWorld).2.conn.committed.documents.map DocRow.filename) = [""] := by
  exact ⟨by decide, by decide⟩

set_option linter.unusedVariables false in
/-- Claim C6 (amended): a create whose filename or media type is the
empty string is not rejected: with no downstream failure it succeeds and
commits the document row (with the empty field) to the document store.
(The hypothesis scopes the statement to the claim's inputs; the handler
performs no validation at all, so the proof never consults it.) -/
theorem C6_amended (encode : String → List Rat) (now : Nat) (doc_id : String)
    (req : DocumentCreate) (w : World)
    (hreq : req.filename = "" ∨ req.mimeType = "") :
    ((create_document encode now doc_id req ⟨false, false, false⟩ w).1).isOk = true
    ∧ (⟨doc_id, req.filename, req.content, req.mimeType, now,
        generate_tags_and_summary req.content req.mimeType⟩ : DocRow)
      ∈ (create_document encode now doc_id req ⟨false, false, false⟩ w).2.conn.committed.documents := by
  simp [create_document, DBConn.commit, ApiResult.isOk]

/-- Claim C6 (witness): a concrete run of the amended statement. -/
theorem C6_witness :
    ((("" : String) = "" ∨ ("text/plain" : String) = ""))
    ∧ ((create_document encode0 7 "C" ⟨"", "hello", "text/plain"⟩ ⟨false, false, false⟩
        emptyWorld).1).isOk = true
    ∧ (⟨"C", "", "hello", "text/plain", 7,
        generate_tags_and_summary "hello" "text/plain"⟩ : DocRow)
      ∈ (create_document encode0 7 "C" ⟨"", "hello", "text/plain"⟩ ⟨false, false, false⟩
          emptyWorld).2.conn.committed.documents :=
  ⟨Or.inl rfl,
    (C6_amended encode0 7 "C" ⟨"", "hello", "text/plain"⟩ emptyWorld (Or.inl rfl)).1,
    (C6_amended encode0 7 "C" ⟨"", "hello", "text/plain"⟩ emptyWorld (Or.inl rfl)).2⟩

/-- Claim C7 (counterexample): injecting a result-cache failure into a
concrete create makes the whole operation answer an error (HTTP 500) —
the cache failure is not swallowed. -/
theorem C7_counterexample :
    ((create_document encode0 7 "C" reqA ⟨false, false, true⟩ emptyWorld).1).isOk = false := by
  decide

/-- Claim C7 (amended): a failure of the result-cache population step
surfaces to the caller as an HTTP 500 error — the create does not
return the created Document — although the committed document row does
remain in the document store. -/
theorem C7_amended (encode : String → List Rat) (now : Nat) (doc_id : String)
    (req : DocumentCreate) (f : Faults) (w : World)
    (hc : f.cacheFails = true) (he : f.embedFails = false) (hi : f.indexFails = false) :
    (create_document encode now doc_id req f w).1 = .httpError 500
    ∧ (⟨doc_id, req.filename, req.content, req.mimeType, now,
        generate_tags_and_summary req.content req.mimeType⟩ : DocRow)
      ∈ (create_document encode now doc_id req f w).2.conn.committed.documents := by
  obtain ⟨e, i, c⟩ := f
  rw [show Faults.cacheFails ⟨e, i, c⟩ = c from rfl] at hc
  rw [show Faults.embedFails ⟨e, i, c⟩ = e from rfl] at he
  rw [show Faults.indexFails ⟨e, i, c⟩ = i from rfl] at hi
  subst hc; subst he; subst hi
  simp [create_document, DBConn.commit, DBConn.rollback]

/-- Claim C7 (witness): a concrete run of the amended statement. -/
theorem C7_witness :
    ((⟨false, false, true⟩ : Faults).cacheFails = true
      ∧ (⟨false, false, true⟩ : Faults).embedFails = false
      ∧ (⟨false, false, true⟩ : Faults).indexFails = false)
    ∧ (create_document encode0 7 "C" reqA ⟨false, false, true⟩ emptyWorld).1 = .httpError 500
    ∧ (⟨"C", reqA.filename, reqA.content, reqA.mimeType, 7,
        generate_tags_and_summary reqA.content reqA.mimeType⟩ : DocRow)
      ∈ (create_document encode0 7 "C" reqA ⟨false, false, true⟩ emptyWorld).2.conn.committed.documents :=
  ⟨⟨rfl, rfl, rfl⟩,
    (C7_amended encode0 7 "C" reqA ⟨false, false, true⟩ emptyWorld rfl rfl rfl).1,
    (C7_amended encode0 7 "C" reqA ⟨false, false, true⟩ emptyWorld rfl rfl rfl).2⟩

/-- Claim C8 (counterexample): with a cosine distance of `3/2` (legal:
cosine distance ranges over `[0, 2]`) the attached similarity is
`1 - 3/2 = -1/2`, which lies outside the claimed range `[0, 2]`. -/
theorem C8_counterexample :
    simsIn02 (search_documents dbA ["A"] [3/2]) = false := by
  simp [simsIn02, search_documents, dbA, rowA, renderDoc, array_agg, dbTagsOf, pyTags,
    List.enum, List.enumFrom]
  norm_num

/-- Claim C8 (amended): when every distance returned by the vector index
lies in `[0, 2]` (the cosine-distance range), every similarity attached
to a search result lies in `[-1, 1]` — not `[0, 2]`. -/
theorem C8_amended (db : DBState) (ids : List String) (ds : List Rat)
    (hd : ∀ d ∈ ds, 0 ≤ d ∧ d ≤ 2) :
    ∀ doc ∈ search_documents db ids ds, ∀ s, doc.similarity = some s → -1 ≤ s ∧ s ≤ 1 := by
  intro doc hdoc s hs
  by_cases hids : ids.isEmpty
  · simp [search_documents, hids] at hdoc
  · unfold search_documents at hdoc
    rw [if_neg hids] at hdoc
    rw [List.mem_map] at hdoc
    obtain ⟨p, hp, hpd⟩ := hdoc
    have hsim : doc.similarity = some ((ds.map (fun d => 1 - d)).getD p.1 0) := by
      rw [← hpd]; rfl
    rw [hsim] at hs
    obtain rfl : s = (ds.map (fun d => 1 - d)).getD p.1 0 := (Option.some.inj hs).symm
    rcases hq : (ds.map (fun d => 1 - d))[p.1]? with _ | q
    · have hz : (ds.map (fun d => 1 - d)).getD p.1 0 = 0 := by
        rw [List.getD_eq_getElem?_getD, hq]
        rfl
      rw [hz]
      norm_num
    · have hmem : q ∈ ds.map (fun d => 1 - d) := List.getElem?_mem hq
      have hv : (ds.map (fun d => 1 - d)).getD p.1 0 = q := by
        rw [List.getD_eq_getElem?_getD, hq]
        rfl
      rw [List.mem_map] at hmem
      obtain ⟨d0, hd0, rfl⟩ := hmem
      have hb := hd d0 hd0
      rw [hv]
      constructor <;> linarith [hb.1, hb.2]

/-- Claim C8 (witness): a concrete run of the amended statement. -/
theorem C8_witness :
    (∀ d ∈ ([0] : List Rat), 0 ≤ d ∧ d ≤ 2)
    ∧ (-1 ≤ (([0] : List Rat).map (fun d => 1 - d)).getD 0 0
        ∧ (([0] : List Rat).map (fun d => 1 - d)).getD 0 0 ≤ 1) :=
  ⟨by decide,
    C8_amended dbA ["A"] [0] (by decide)
      (renderDoc dbA rowA (some ((([0] : List Rat).map (fun d => 1 - d)).getD 0 0)))
      (by simp [search_documents, dbA, List.enum, List.enumFrom])
      ((([0] : List Rat).map (fun d => 1 - d)).getD 0 0) rfl⟩

/-- Row and database for the listing witness. -/
def wRow : DocRow := ⟨"d1", "f.txt", "c", "text/plain", 5, ⟨["x"], "c"⟩⟩

def wDb : DBState := ⟨[wRow], []⟩

/-- Claim C9: the listing endpoint returns the documents ordered newest
first (`created_at` non-increasing along the output), and a document
with no tag rows is returned with `tags = []` — the `[NULL]` array that
`array_agg` produces for it is mapped to the empty list by the handler's
truthiness test, never surfacing as a null placeholder. -/
theorem C9_listing (db : DBState) (d : Document) (hd : d ∈ get_documents db)
    (hnotags : ∀ t ∈ db.tags, t.doc_id ≠ d.id) :
    ((get_documents db).map Document.created_at).Sorted (· ≥ ·)
    ∧ d.tags = [] := by
  constructor
  · unfold get_documents
    rw [List.map_map]
    have hs := List.sorted_insertionSort createdDesc db.documents
    rw [show (Document.created_at ∘ fun r => renderDoc db r none) = DocRow.created_at from rfl]
    exact List.pairwise_map.mpr (hs.imp (fun h => h))
  · unfold get_documents at hd
    rw [List.mem_map] at hd
    obtain ⟨r, hr, rfl⟩ := hd
    have hfil : db.tags.filter (fun t => t.doc_id == r.id) = [] := by
      rw [List.filter_eq_nil_iff]
      intro t ht
      simpa using hnotags t ht
    show pyTags (array_agg db r.id) = []
    unfold array_agg dbTagsOf
    rw [hfil]
    rfl

/-- Claim C9 (witness): a concrete run on a one-document store with no
tag rows. -/
theorem C9_witness :
    ((renderDoc wDb wRow none ∈ get_documents wDb)
      ∧ (∀ t ∈ wDb.tags, t.doc_id ≠ (renderDoc wDb wRow none).id))
    ∧ ((get_documents wDb).map Document.created_at).Sorted (· ≥ ·)
    ∧ (renderDoc wDb wRow none).tags = [] :=
  ⟨⟨by decide, by decide⟩,
    (C9_listing wDb (renderDoc wDb wRow none) (by decide) (by decide)).1,
    (C9_listing wDb (renderDoc wDb wRow none) (by decide) (by decide)).2⟩

/-- The length of a `String.mk` is the length of its code-point list. -/
theorem strLength_mk (l : List Char) : (String.mk l).length = l.length := rfl

/-- String append adds lengths. -/
theorem strLength_append (s t : String) : (s ++ t).length = s.length + t.length := by
  cases s with
  | mk a =>
    cases t with
    | mk b =>
      show (String.mk (a ++ b)).length = (String.mk a).length + (String.mk b).length
      rw [strLength_mk, strLength_mk, strLength_mk, List.length_append]

/-- The tag choice of the annotator's text branch
(`list(set(keywords))[:5] or fallback`) is never empty. -/
theorem tagsChoice_ne_nil (l : List String) :
    (if (l.dedup.take 5).isEmpty then ["document", "text", "file"] else l.dedup.take 5)
      ≠ [] := by
  split
  · simp
  · next h =>
    intro heq
    rw [heq] at h
    simp at h

/-- The tag choice of the annotator's text branch has at most 5 tags. -/
theorem tagsChoice_le_five (l : List String) :
    (if (l.dedup.take 5).isEmpty then ["document", "text", "file"] else l.dedup.take 5).length
      ≤ 5 := by
  split
  · decide
  · rw [List.length_take]
    exact Nat.min_le_left 5 _

/-- Claim C10: for every content string and media type, the annotator
returns a non-empty tag list of at most 5 tags, and for textual media
types the summary is the content itself when it has at most 200
characters and otherwise its first 200 characters followed by `"..."`,
so in the textual case the summary never exceeds 203 characters. -/
theorem C10_annotator_ok (content mime_type : String) :
    (generate_tags_and_summary content mime_type).tags ≠ []
    ∧ (generate_tags_and_summary content mime_type).tags.length ≤ 5
    ∧ (isTextual mime_type = true →
        (generate_tags_and_summary content mime_type).summary
          = (if 200 < content.length then pySlice content 200 ++ "..." else content)
        ∧ (generate_tags_and_summary content mime_type).summary.length ≤ 203) := by
  unfold generate_tags_and_summary
  by_cases ht : isTextual mime_type
  · rw [if_pos ht]
    refine ⟨tagsChoice_ne_nil _, tagsChoice_le_five _, fun _ => ⟨rfl, ?_⟩⟩
    show (if 200 < content.length then pySlice content 200 ++ "..." else content).length ≤ 203
    split
    · have h1 : (pySlice content 200).length ≤ 200 := by
        show (content.data.take 200).length ≤ 200
        rw [List.length_take]
        exact Nat.min_le_left 200 _
      calc (pySlice content 200 ++ "...").length
          = (pySlice content 200).length + ("..." : String).length := strLength_append _ _
        _ ≤ 200 + 3 := by
            have h2 : ("..." : String).length = 3 := rfl
            omega
        _ = 203 := rfl
    · next hshort =>
      have h3 : ¬ 200 < content.length := hshort
      omega
  · rw [if_neg ht]
    have ht' : isTextual mime_type = false := by
      rwa [Bool.not_eq_true] at ht
    refine ⟨?_, ?_, fun hcontra => ?_⟩
    · exact List.cons_ne_nil _ _
    · show ([pyUpper (lastSlashSegment mime_type), "media", "file"]).length ≤ 5
      simp
    · rw [ht'] at hcontra
      exact absurd hcontra (by decide)

/-- Claim C10 (witness): a concrete run on a short text document. -/
theorem C10_witness :
    ((generate_tags_and_summary "hello" "text/plain").tags ≠ []
      ∧ (generate_tags_and_summary "hello" "text/plain").tags.length ≤ 5)
    ∧ isTextual "text/plain" = true
    ∧ ((generate_tags_and_summary "hello" "text/plain").summary
        = (if 200 < ("hello" : String).length then pySlice "hello" 200 ++ "..." else "hello")
      ∧ (generate_tags_and_summary "hello" "text/plain").summary.length ≤ 203) :=
  ⟨⟨(C10_annotator_ok "hello" "text/plain").1, (C10_annotator_ok "hello" "text/plain").2.1⟩,
    by decide,
    (C10_annotator_ok "hello" "text/plain").2.2 (by decide)⟩

end OmniMind
